import Mathlib

/- Shallow embedding of src/main.py (a Telegram weather / currency bot).
   Pure data and list manipulation are translated directly; each network call is
   modelled by passing the HTTP outcome (status plus decoded body, or a raised
   network / timeout error) as an explicit argument.  Python floats are
   idealised as exact rationals (Rat). -/

set_option maxHeartbeats 1000000

attribute [local semireducible] Rat.mul Rat.add Rat.sub Rat.inv Rat.ofScientific

deriving instance DecidableEq for Except

/-! ### Python string and number primitives used by main.py -/

/-- Model of Python str.lower restricted to the alphabets the program
    manipulates (ASCII letters and Russian Cyrillic, including Ё). -/
def charLower (c : Char) : Char :=
  if 'A' ≤ c ∧ c ≤ 'Z' then Char.ofNat (c.toNat + 32)
  else if 'А' ≤ c ∧ c ≤ 'Я' then Char.ofNat (c.toNat + 32)
  else if c = 'Ё' then 'ё'
  else c

/-- Model of Python str.upper restricted to the same alphabets. -/
def charUpper (c : Char) : Char :=
  if 'a' ≤ c ∧ c ≤ 'z' then Char.ofNat (c.toNat - 32)
  else if 'а' ≤ c ∧ c ≤ 'я' then Char.ofNat (c.toNat - 32)
  else if c = 'ё' then 'Ё'
  else c

def pyLower (s : String) : String := String.mk (s.data.map charLower)

def pyUpper (s : String) : String := String.mk (s.data.map charUpper)

/-- Model of Python str.capitalize: first character upper-cased, the rest
    lower-cased. -/
def pyCapitalize (s : String) : String :=
  match s.data with
  | [] => ""
  | c :: rest => String.mk (charUpper c :: rest.map charLower)

/-- Whether pat occurs at the front of the second list. -/
def leadsWith : List Char → List Char → Bool
  | [], _ => true
  | _ :: _, [] => false
  | a :: as, b :: bs => a == b && leadsWith as bs

/-- Whether pat occurs anywhere inside the second list. -/
def occursIn (pat : List Char) : List Char → Bool
  | [] => leadsWith pat []
  | c :: rest => leadsWith pat (c :: rest) || occursIn pat rest

/-- Model of the Python operator needle in hay on strings. -/
def pyIn (needle hay : String) : Bool := occursIn needle.data hay.data

/-- Model of Python str.startswith. -/
def pyStartsWith (s pat : String) : Bool := leadsWith pat.data s.data

/-- Model of Python str.replace for a nonempty pattern: every non-overlapping
    occurrence, scanning left to right, is replaced.  The structural fuel
    argument (one unit per consumed character) keeps the definition kernel-
    computable; replaceList supplies enough fuel for the whole input. -/
def replaceListAux (pat repl : List Char) : Nat → List Char → List Char
  | _, [] => []
  | 0, l => l
  | fuel + 1, c :: rest =>
    if pat ≠ [] ∧ leadsWith pat (c :: rest) then
      repl ++ replaceListAux pat repl fuel ((c :: rest).drop pat.length)
    else
      c :: replaceListAux pat repl fuel rest

def replaceList (pat repl : List Char) (l : List Char) : List Char :=
  replaceListAux pat repl l.length l

def pyReplace (s pat repl : String) : String :=
  String.mk (replaceList pat.data repl.data s.data)

/-- Model of s.replace used with the single-character pattern comma. -/
def commaToDot (s : String) : String :=
  String.mk (s.data.map fun c => if c = ',' then '.' else c)

/-- Model of Python str.split() with no argument: split on whitespace runs,
    dropping empty tokens. -/
def splitWsAux : List Char → List (List Char)
  | [] => [[]]
  | c :: rest =>
    match splitWsAux rest with
    | [] => [[]]
    | g :: gs => if c.isWhitespace then [] :: g :: gs else (c :: g) :: gs

def pySplit (s : String) : List String :=
  ((splitWsAux s.data).map String.mk).filter (fun t => t ≠ "")

/-- Model of Python str.split(maxsplit=1): first whitespace-separated token,
    then the remainder of the string (with the separating run removed). -/
def pySplitMax1 (s : String) : List String :=
  let cs := s.data.dropWhile Char.isWhitespace
  let tok := cs.takeWhile (fun c => !c.isWhitespace)
  let rest := (cs.drop tok.length).dropWhile Char.isWhitespace
  if tok = [] then []
  else if rest = [] then [String.mk tok]
  else [String.mk tok, String.mk rest]

/-- Model of Python s.split(" ")[0]: the characters before the first space. -/
def takeBeforeSpace (s : String) : String :=
  String.mk (s.data.takeWhile (fun c => c ≠ ' '))

/-- Model of Python str.strip(). -/
def pyStrip (s : String) : String :=
  String.mk (((s.data.dropWhile Char.isWhitespace).reverse.dropWhile
    Char.isWhitespace).reverse)

def digitsToNat (ds : List Char) : Nat :=
  ds.foldl (fun n c => n * 10 + (c.toNat - 48)) 0

/-- Splits a character list at the first exponent marker e or E. -/
def splitAtExpChar : List Char → List Char × Option (List Char)
  | [] => ([], none)
  | c :: rest =>
    if c = 'e' ∨ c = 'E' then ([], some rest)
    else
      let r := splitAtExpChar rest
      (c :: r.1, r.2)

/-- Splits a character list at the first dot. -/
def splitDot : List Char → List Char × Option (List Char)
  | [] => ([], none)
  | c :: rest =>
    if c = '.' then ([], some rest)
    else
      let r := splitDot rest
      (c :: r.1, r.2)

def readSign : List Char → Int × List Char
  | '-' :: rest => (-1, rest)
  | '+' :: rest => (1, rest)
  | cs => (1, cs)

/-- Model of the Python float(str) constructor on plain decimal literals
    (optional sign, digits with at most one dot, optional exponent); returns
    none where Python raises ValueError.  The special forms inf and nan,
    which cannot arise from the bot commands under test, are outside the
    model. -/
def pyFloat (s : String) : Option Rat :=
  let p := readSign s.data
  let m := splitAtExpChar p.2
  let d := splitDot m.1
  let ip := d.1
  let fp := (d.2).getD []
  if ip.all Char.isDigit ∧ fp.all Char.isDigit ∧ ip.length + fp.length ≠ 0 then
    let mval : Rat := (digitsToNat ip : Rat) + (digitsToNat fp : Rat) / ((10 : Rat) ^ fp.length)
    match m.2 with
    | none => some (p.1 * mval)
    | some ecs =>
      let ep := readSign ecs
      if ep.2 ≠ [] ∧ ep.2.all Char.isDigit then
        some (p.1 * mval * (10 : Rat) ^ (ep.1 * (digitsToNat ep.2 : Int)))
      else none
  else none

/-- Model of the Python built-in round() to an integer: round half to even. -/
def pyRound (q : Rat) : Int :=
  let f := q.floor
  let r := q - f
  if r < 1 / 2 then f
  else if 1 / 2 < r then f + 1
  else if f % 2 = 0 then f else f + 1

def padZeros (k : Nat) (s : String) : String :=
  String.mk (List.replicate (k - s.length) '0' ++ s.data)

/-- Model of the Python fixed-point format specifier (as in .2f) on the
    idealised rational value. -/
def pyFormatFixed (prec : Nat) (q : Rat) : String :=
  let n := pyRound (q * (10 : Rat) ^ prec)
  let a := n.natAbs
  (if n < 0 then "-" else "") ++ toString (a / 10 ^ prec) ++
    (if prec = 0 then "" else "." ++ padZeros prec (toString (a % 10 ^ prec)))

/-- Counts and removes the factors p of a number, with a structural fuel
    argument for kernel computability; stripFactorCount supplies enough
    fuel. -/
def stripFactorCountAux (p : Nat) : Nat → Nat → Nat × Nat
  | 0, n => (0, n)
  | fuel + 1, n =>
    if 2 ≤ p ∧ n ≠ 0 ∧ n % p = 0 then
      let r := stripFactorCountAux p fuel (n / p)
      (r.1 + 1, r.2)
    else (0, n)

def stripFactorCount (p n : Nat) : Nat × Nat := stripFactorCountAux p n n

def trimRightZeros (s : String) : String :=
  String.mk ((s.data.reverse.dropWhile (fun c => c = '0')).reverse)

/-- Model of Python str() on a float value, idealised to exact decimals: a
    rational with a finite decimal expansion prints as its shortest decimal
    form with at least one fractional digit (as Python does for floats);
    other rationals, which cannot arise as float values in this model, print
    as a fraction. -/
def pyStr (q : Rat) : String :=
  let den := q.den
  let s2 := stripFactorCount 2 den
  let s5 := stripFactorCount 5 s2.2
  if s5.2 ≠ 1 then toString q.num ++ "/" ++ toString q.den
  else
    let k := max s2.1 s5.1
    let scaled := q.num.natAbs * (10 ^ k / den)
    let fr := trimRightZeros (padZeros k (toString (scaled % 10 ^ k)))
    (if q.num < 0 then "-" else "") ++ toString (scaled / 10 ^ k) ++ "." ++
      (if fr = "" then "0" else fr)

def pad2 (n : Nat) : String := padZeros 2 (toString n)

/-- Model of datetime.fromtimestamp(dt).strftime of hours and minutes,
    idealising the process-local timezone as UTC. -/
def hhmmFromTimestamp (dt : Int) : String :=
  let t := (dt % 86400).toNat
  pad2 (t / 3600) ++ ":" ++ pad2 (t % 3600 / 60)

/-! ### Data model -/

/-- The main block of an OpenWeatherMap current-weather or forecast sample. -/
structure WeatherMain where
  temp : Rat
  feels_like : Rat
  humidity : Int
  pressure : Int
  deriving DecidableEq

/-- The first element of the weather array of an OpenWeatherMap response. -/
structure WeatherCond where
  description : String
  icon : String
  deriving DecidableEq

/-- The fields of a current-weather response body that main.py reads. -/
structure WeatherData where
  name : String
  main : WeatherMain
  weather0 : WeatherCond
  windSpeed : Rat
  dt : Int
  deriving DecidableEq

/-- One 3-hour sample of the forecast endpoint, as read by get_forecast. -/
structure ForecastItem where
  dt_txt : String
  temp : Rat
  feels_like : Rat
  description : String
  icon : String
  humidity : Int
  wind : Rat
  deriving DecidableEq

/-- One per-day entry built by get_forecast. -/
structure ForecastDay where
  date : String
  temp : Rat
  feels_like : Rat
  description : String
  icon : String
  humidity : Int
  wind : Rat
  deriving DecidableEq

/-- One item of the PrivatBank rate list; item.get can miss either key. -/
structure RateItem where
  ccy : Option String
  sale : Option String
  deriving DecidableEq

/-- The rates dict of main.py: its only keys are EUR and UAH. -/
structure Rates where
  eur : Rat
  uah : Rat
  deriving DecidableEq

/-- Model of dict.get(key, default) on the two-key rates dict. -/
def ratesGet (r : Rates) (k : String) (d : Rat) : Rat :=
  if k = "EUR" then r.eur else if k = "UAH" then r.uah else d

/-- The outcome of one HTTP request: a response with a status code and a
    decoded body, or a raised network / timeout / decode error. -/
inductive HttpOutcome (α : Type) where
  | response (status : Nat) (body : α)
  | exn
  deriving DecidableEq

/-- Module constant EXCHANGE_RATES of main.py (the fallback dict). -/
def EXCHANGE_RATES : Rates := { eur := 1, uah := 44.5 }

/-- Module constant CITIES of main.py: (name, latitude, longitude). -/
def CITIES : List (String × Rat × Rat) :=
  [("Кёльн", 50.9375, 6.9603),
   ("Линц-ам-Райн", 50.5667, 7.3167),
   ("Нюмбрехт", 50.9167, 7.6333),
   ("Гуммерсбах", 51.0236, 7.5628),
   ("Виль", 50.9167, 7.5333),
   ("Диренхаузен", 50.8833, 7.6167),
   ("Вальдбрель", 50.9333, 7.7167)]

/-! ### Provider clients -/

/-- get_exchange_rates, 200 branch: the loop over the response list inside the
    try block.  A float() failure on a sale quote raises inside that block,
    and the except handler then returns EXCHANGE_RATES. -/
def processItems : List RateItem → Rates → Rates
  | [], rates => rates
  | item :: rest, rates =>
    if item.ccy = some "EUR" then
      match pyFloat (item.sale.getD "44.5") with
      | some v => processItems rest { eur := v, uah := 1 }
      | none => EXCHANGE_RATES
    else processItems rest rates

/-- get_exchange_rates of main.py.  Status 200 scans the list for the EUR
    entry; any other status, and any raised exception, returns the module
    fallback dict EXCHANGE_RATES. -/
def get_exchange_rates (out : HttpOutcome (List RateItem)) : Rates :=
  match out with
  | .response status items =>
    if status = 200 then processItems items { eur := 1, uah := 44.5 }
    else EXCHANGE_RATES
  | .exn => EXCHANGE_RATES

/-- convert_currency of main.py. -/
def convert_currency (amount : Rat) (from_currency to_currency : String)
    (rates : Rates) : Rat × Rat :=
  if from_currency = to_currency then (amount, ratesGet rates from_currency 1)
  else if from_currency = "EUR" then
    (amount * ratesGet rates "EUR" 1, ratesGet rates "EUR" 1)
  else
    (amount / ratesGet rates "EUR" 1, 1 / ratesGet rates "EUR" 1)

/-- get_weather of main.py.  Status 200 returns the body with the name field
    overwritten by the configured city name; any other status logs and
    returns None.  The function has no try / except, so a raised network or
    timeout error propagates to the caller (modelled as Except.error). -/
def get_weather (city_name : String) (out : HttpOutcome WeatherData) :
    Except Unit (Option WeatherData) :=
  match out with
  | .response status data =>
    if status = 200 then .ok (some { data with name := city_name })
    else .ok none
  | .exn => .error ()

def isMidday (it : ForecastItem) : Bool := pyIn "12:00:00" it.dt_txt

def dateOf (it : ForecastItem) : String := takeBeforeSpace it.dt_txt

/-- The per-day dict value built for one midday sample. -/
def forecastItemToDay (it : ForecastItem) : ForecastDay :=
  { date := dateOf it, temp := it.temp, feels_like := it.feels_like,
    description := it.description, icon := it.icon, humidity := it.humidity,
    wind := it.wind }

/-- Assignment daily_forecast[date] = value on a Python dict modelled as an
    insertion-ordered association list: an existing key keeps its position
    but its value is overwritten; a new key is appended. -/
def dictInsert (k : String) (v : ForecastDay) :
    List (String × ForecastDay) → List (String × ForecastDay)
  | [] => [(k, v)]
  | p :: rest => if p.1 = k then (k, v) :: rest else p :: dictInsert k v rest

/-- The loop of get_forecast over the flat sample list: every sample whose
    dt_txt contains 12:00:00 is written into the daily dict under its date
    (the text before the first space). -/
def dailyFold (acc : List (String × ForecastDay)) :
    List ForecastItem → List (String × ForecastDay)
  | [] => acc
  | it :: rest =>
    if isMidday it then
      dailyFold (dictInsert (dateOf it) (forecastItemToDay it) acc) rest
    else dailyFold acc rest

/-- get_forecast of main.py.  Status 200 groups the midday samples by date
    and keeps the first 3 dict values; any other status returns None; like
    get_weather it has no try / except, so a raised error propagates. -/
def get_forecast (out : HttpOutcome (List ForecastItem)) :
    Except Unit (Option (List ForecastDay)) :=
  match out with
  | .response status items =>
    if status = 200 then .ok (some (((dailyFold [] items).map Prod.snd).take 3))
    else .ok none
  | .exn => .error ()

/-! ### Formatter -/

/-- The weather_emojis lookup with its generic-thermometer fallback (the same
    18-entry table appears in format_weather and format_forecast). -/
def weatherEmojiGet (icon : String) : String :=
  if icon = "01d" then "☀️" else if icon = "01n" then "🌙"
  else if icon = "02d" then "⛅" else if icon = "02n" then "⛅"
  else if icon = "03d" then "☁️" else if icon = "03n" then "☁️"
  else if icon = "04d" then "☁️" else if icon = "04n" then "☁️"
  else if icon = "09d" then "🌧️" else if icon = "09n" then "🌧️"
  else if icon = "10d" then "🌦️" else if icon = "10n" then "🌦️"
  else if icon = "11d" then "⛈️" else if icon = "11n" then "⛈️"
  else if icon = "13d" then "❄️" else if icon = "13n" then "❄️"
  else if icon = "50d" then "🌫️" else if icon = "50n" then "🌫️"
  else "🌡️"

/-- The days_ru lookup of format_forecast with its default value. -/
def daysRuGet (abbr dflt : String) : String :=
  if abbr = "Mon" then "Пн" else if abbr = "Tue" then "Вт"
  else if abbr = "Wed" then "Ср" else if abbr = "Thu" then "Чт"
  else if abbr = "Fri" then "Пт" else if abbr = "Sat" then "Сб"
  else if abbr = "Sun" then "Вс" else dflt

def isLeapYear (y : Nat) : Bool :=
  y % 4 = 0 && (y % 100 ≠ 0 || y % 400 = 0)

def daysInMonth (y m : Nat) : Nat :=
  if m = 2 then (if isLeapYear y then 29 else 28)
  else if m = 4 ∨ m = 6 ∨ m = 9 ∨ m = 11 then 30
  else 31

/-- Whether a token matches the strptime month pattern 1[0-2]|0[1-9]|[1-9]. -/
def monthTokOk (s : String) : Bool :=
  match s.data with
  | [c] => '1' ≤ c && c ≤ '9'
  | ['0', c] => '1' ≤ c && c ≤ '9'
  | ['1', c] => '0' ≤ c && c ≤ '2'
  | _ => false

/-- Whether a token matches the strptime day pattern
    3[01]|[12][0-9]|0[1-9]|[1-9]. -/
def dayTokOk (s : String) : Bool :=
  match s.data with
  | [c] => '1' ≤ c && c ≤ '9'
  | ['0', c] => '1' ≤ c && c ≤ '9'
  | ['1', c] => '0' ≤ c && c ≤ '9'
  | ['2', c] => '0' ≤ c && c ≤ '9'
  | ['3', c] => '0' ≤ c && c ≤ '1'
  | _ => false

/-- Model of Python s.split(sep) for the single-character separator dash. -/
def splitOnDash : List Char → List (List Char)
  | [] => [[]]
  | c :: rest =>
    match splitOnDash rest with
    | [] => [[]]
    | g :: gs => if c = '-' then [] :: g :: gs else (c :: g) :: gs

/-- Model of datetime.strptime(s, of year-month-day): a 4-digit year, 1-2
    digit month and day joined by dashes with nothing left over, and a valid
    calendar date with year at least 1; none where Python raises. -/
def pyStrptimeYmd (s : String) : Option (Nat × Nat × Nat) :=
  match (splitOnDash s.data).map String.mk with
  | [ys, ms, ds] =>
    if ys.length = 4 ∧ ys.data.all Char.isDigit ∧ monthTokOk ms ∧ dayTokOk ds then
      let y := digitsToNat ys.data
      let m := digitsToNat ms.data
      let d := digitsToNat ds.data
      if 1 ≤ y ∧ 1 ≤ d ∧ d ≤ daysInMonth y m then some (y, m, d) else none
    else none
  | _ => none

/-- Sakamoto weekday formula: 0 is Sunday. -/
def weekdayIdx (y m d : Nat) : Nat :=
  let t := [0, 3, 2, 5, 0, 3, 5, 1, 4, 6, 2, 4]
  let y := if m < 3 then y - 1 else y
  (y + y / 4 - y / 100 + y / 400 + t.getD (m - 1) 0 + d) % 7

/-- Model of strftime day-abbreviation output. -/
def weekdayAbbr (y m d : Nat) : String :=
  match weekdayIdx y m d with
  | 0 => "Sun" | 1 => "Mon" | 2 => "Tue" | 3 => "Wed"
  | 4 => "Thu" | 5 => "Fri" | _ => "Sat"

/-- Model of Python date[5:]. -/
def dropFive (s : String) : String := String.mk (s.data.drop 5)

/-- The day_short computation of format_forecast: with at least three
    dash-separated parts, try strptime and map the weekday through days_ru
    (default: the raw date); on a strptime error fall back to date[5:];
    otherwise show the raw date string. -/
def dayShort (date : String) : String :=
  if (splitOnDash date.data).length ≥ 3 then
    match pyStrptimeYmd date with
    | some (y, m, d) => daysRuGet (weekdayAbbr y m d) date
    | none => dropFive date
  else date

/-- One per-day block of the format_forecast reply. -/
def forecastBlock (day : ForecastDay) : String :=
  "**" ++ dayShort day.date ++ "** " ++ weatherEmojiGet day.icon ++ "\n" ++
  "🌡️ " ++ toString (pyRound day.temp) ++ "°C (ощущается как " ++
  toString (pyRound day.feels_like) ++ "°C)\n" ++
  "📝 " ++ pyCapitalize day.description ++ "\n" ++
  "💧 " ++ toString day.humidity ++ "% | 💨 " ++ pyStr day.wind ++ " м/с\n\n"

/-- format_forecast of main.py: a header, one block per day accumulated with
    string concatenation, and a final strip. -/
def format_forecast (city_name : String) (forecast_list : List ForecastDay) :
    String :=
  pyStrip (forecast_list.foldl (fun res day => res ++ forecastBlock day)
    ("📅 **Прогноз на 3 дня: " ++ city_name ++ "**\n\n"))

/-- format_weather of main.py.  The temperature and feels_like floats are
    interpolated directly, with no rounding. -/
def format_weather (data : WeatherData) : String :=
  weatherEmojiGet data.weather0.icon ++ " **Погода в городе " ++ data.name ++
  "**\n\n" ++
  "🌡️ Температура: " ++ pyStr data.main.temp ++ "°C (ощущается как " ++
  pyStr data.main.feels_like ++ "°C)\n" ++
  "📝 Описание: " ++ pyCapitalize data.weather0.description ++ "\n" ++
  "💧 Влажность: " ++ toString data.main.humidity ++ "%\n" ++
  "🔽 Давление: " ++ toString data.main.pressure ++ " гПа\n" ++
  "💨 Ветер: " ++ pyStr data.windSpeed ++ " м/с\n" ++
  "🕒 Обновлено: " ++ hhmmFromTimestamp data.dt

/-! ### Spec-side formatter descriptions (for the display-rounding claim) -/

/-- Written from the spec sentence: the weather reply with the temperature
    and feels-like values rounded to the nearest integer for display, the
    other fields at native precision. -/
def format_weather_specRounded (data : WeatherData) : String :=
  String.join
    [weatherEmojiGet data.weather0.icon, " **Погода в городе ", data.name,
     "**\n\n",
     "🌡️ Температура: ", toString (pyRound data.main.temp),
     "°C (ощущается как ", toString (pyRound data.main.feels_like), "°C)\n",
     "📝 Описание: ", pyCapitalize data.weather0.description, "\n",
     "💧 Влажность: ", toString data.main.humidity, "%\n",
     "🔽 Давление: ", toString data.main.pressure, " гПа\n",
     "💨 Ветер: ", pyStr data.windSpeed, " м/с\n",
     "🕒 Обновлено: ", hhmmFromTimestamp data.dt]

/-- Written from the amended spec sentence: the weather reply with every
    numeric field, temperatures included, at its native (unrounded)
    precision. -/
def format_weather_specNative (data : WeatherData) : String :=
  String.join
    [weatherEmojiGet data.weather0.icon, " **Погода в городе ", data.name,
     "**\n\n",
     "🌡️ Температура: ", pyStr data.main.temp,
     "°C (ощущается как ", pyStr data.main.feels_like, "°C)\n",
     "📝 Описание: ", pyCapitalize data.weather0.description, "\n",
     "💧 Влажность: ", toString data.main.humidity, "%\n",
     "🔽 Давление: ", toString data.main.pressure, " гПа\n",
     "💨 Ветер: ", pyStr data.windSpeed, " м/с\n",
     "🕒 Обновлено: ", hhmmFromTimestamp data.dt]

/-- Written from the spec sentence for the forecast reply: per-day blocks in
    which the temperature and feels-like values are shown rounded to the
    nearest integer, joined after the header and stripped. -/
def forecastBlockSpecRounded (day : ForecastDay) : String :=
  String.join
    ["**", dayShort day.date, "** ", weatherEmojiGet day.icon, "\n",
     "🌡️ ", toString (pyRound day.temp), "°C (ощущается как ",
     toString (pyRound day.feels_like), "°C)\n",
     "📝 ", pyCapitalize day.description, "\n",
     "💧 ", toString day.humidity, "% | 💨 ", pyStr day.wind, " м/с\n\n"]

/-- The spec-side forecast reply built by mapping the rounded per-day block
    over the days and joining. -/
def format_forecast_specRounded (city_name : String)
    (forecast_list : List ForecastDay) : String :=
  pyStrip ("📅 **Прогноз на 3 дня: " ++ city_name ++ "**\n\n" ++
    String.join (forecast_list.map forecastBlockSpecRounded))

/-! ### Command router -/

/-- One outward-visible step of a handler: a new message, an in-place edit of
    an existing message, a provider call, or the callback acknowledgement. -/
inductive Effect where
  | sendMessage (text : String)
  | editMessage (text : String)
  | fetchWeather (city : String)
  | fetchForecast (city : String)
  | fetchRates
  | ack
  deriving DecidableEq, Repr

def isReply : Effect → Bool
  | .sendMessage _ => true
  | .editMessage _ => true
  | _ => false

def isEdit : Effect → Bool
  | .editMessage _ => true
  | _ => false

def weatherApology (city_name : String) : String :=
  "❌ Не удалось получить погоду для города " ++ city_name

def forecastApology (city_name : String) : String :=
  "❌ Не удалось получить прогноз для города " ++ city_name

def weatherLoadingText : String :=
  "🔄 Загружаю погоду для " ++ toString CITIES.length ++ " городов..."

def forecastLoadingText : String :=
  "🔄 Загружаю прогноз на 3 дня для " ++ toString CITIES.length ++ " городов..."

def cityUsageText : String :=
  "❌ Укажите название города.\nПример: /city Кёльн"

def cityNotFoundText (arg : String) : String :=
  "❌ Город \x27" ++ arg ++ "\x27 не найден.\n" ++
  "Используйте команду /near чтобы увидеть список доступных городов."

def usageBadFormat : String :=
  "❌ Неверный формат.\n\nПримеры:\n/currency 100 EUR\n/currency 1000 UAH"

def usageUnsupported : String :=
  "❌ Поддерживаются только EUR и UAH.\n\nПримеры:\n/currency 100 EUR\n/currency 1000 UAH"

def currencyMenuText (eur_rate : Rat) : String :=
  "💱 **Курс валют (ПриватБанк)**\n\n" ++
  "🇪🇺 1 EUR = " ++ pyFormatFixed 2 eur_rate ++ " ₴ UAH\n" ++
  "🇺🇦 1 UAH = " ++ pyFormatFixed 4 (1 / eur_rate) ++ " € EUR\n\n" ++
  "**Примеры:**\n" ++
  "/currency 100 EUR - конвертировать 100 евро в гривны\n" ++
  "/currency 1000 UAH - конвертировать 1000 гривен в евро\n\n" ++
  "Или используйте кнопки ниже:"

def convReplyEUR (amount converted rate : Rat) : String :=
  "💱 **Конвертация**\n\n" ++
  pyFormatFixed 2 amount ++ " € EUR = " ++ pyFormatFixed 2 converted ++
  " ₴ UAH\n\n" ++
  "Курс: 1 EUR = " ++ pyFormatFixed 2 rate ++ " UAH"

def convReplyUAH (amount converted rate : Rat) : String :=
  "💱 **Конвертация**\n\n" ++
  pyFormatFixed 2 amount ++ " ₴ UAH = " ++ pyFormatFixed 2 converted ++
  " € EUR\n\n" ++
  "Курс: 1 UAH = " ++ pyFormatFixed 4 rate ++ " EUR"

def currencyShortText (eur_rate : Rat) : String :=
  "💱 **Курс валют (ПриватБанк)**\n\n" ++
  "🇪🇺 1 EUR = " ++ pyFormatFixed 2 eur_rate ++ " ₴ UAH\n" ++
  "🇺🇦 1 UAH = " ++ pyFormatFixed 4 (1 / eur_rate) ++ " € EUR\n\n" ++
  "**Примеры:**\n/currency 100 EUR\n/currency 1000 UAH"

def currencyRefreshText (eur_rate : Rat) (nowHHMM : String) : String :=
  "💱 **Курс валют (ПриватБанк)**\n\n" ++
  "🇪🇺 1 EUR = " ++ pyFormatFixed 2 eur_rate ++ " ₴ UAH\n" ++
  "🇺🇦 1 UAH = " ++ pyFormatFixed 4 (1 / eur_rate) ++ " € EUR\n\n" ++
  "_Обновлено: " ++ nowHHMM ++ "_"

def convEurUahText : String :=
  "💱 **EUR → UAH**\n\nВведите сумму в евро:\nПример: `/currency 100 EUR`"

def convUahEurText : String :=
  "💱 **UAH → EUR**\n\nВведите сумму в гривнах:\nПример: `/currency 1000 UAH`"

/-- The numbered static city list used by /near and the list_cities button. -/
def numberCities (i : Nat) : List (String × Rat × Rat) → List String
  | [] => []
  | c :: rest => (toString (i + 1) ++ ". " ++ c.1) :: numberCities (i + 1) rest

def citiesText : String :=
  "📍 **Доступные города:**\n\n" ++
  String.intercalate "\n" (numberCities 0 CITIES) ++
  "\n\nВсего: " ++ toString CITIES.length ++ " города"

/-- The per-city loop body of cmd_weather and of the weather_all callback
    branch: fetch, then send the formatted reading or the apology. -/
def weatherLoop (fetch : String → Rat → Rat → HttpOutcome WeatherData) :
    List (String × Rat × Rat) → Except Unit (List Effect)
  | [] => .ok []
  | c :: rest =>
    match get_weather c.1 (fetch c.1 c.2.1 c.2.2) with
    | .error e => .error e
    | .ok w =>
      match weatherLoop fetch rest with
      | .error e => .error e
      | .ok tail =>
        .ok (Effect.fetchWeather c.1 ::
          (match w with
           | some data => Effect.sendMessage (format_weather data)
           | none => Effect.sendMessage (weatherApology c.1)) :: tail)

/-- The per-city loop body of the forecast_all callback branch. -/
def forecastLoop (fetch : String → Rat → Rat → HttpOutcome (List ForecastItem)) :
    List (String × Rat × Rat) → Except Unit (List Effect)
  | [] => .ok []
  | c :: rest =>
    match get_forecast (fetch c.1 c.2.1 c.2.2) with
    | .error e => .error e
    | .ok w =>
      match forecastLoop fetch rest with
      | .error e => .error e
      | .ok tail =>
        .ok (Effect.fetchForecast c.1 ::
          (match w with
           | some days => Effect.sendMessage (format_forecast c.1 days)
           | none => Effect.sendMessage (forecastApology c.1)) :: tail)

/-- cmd_weather of main.py: the loading notice, then one reply per configured
    city in list order.  A raised fetch error propagates (the handler has no
    try / except). -/
def cmd_weather (fetch : String → Rat → Rat → HttpOutcome WeatherData) :
    Except Unit (List Effect) :=
  match weatherLoop fetch CITIES with
  | .error e => .error e
  | .ok effs => .ok (Effect.sendMessage weatherLoadingText :: effs)

/-- cmd_city of main.py: parse the argument with split(maxsplit=1), match it
    case-insensitively against the configured names in both substring
    directions (first hit wins), and fetch only on a match. -/
def cmd_city (text : String)
    (fetch : String → Rat → Rat → HttpOutcome WeatherData) :
    Except Unit (List Effect) :=
  match pySplitMax1 text with
  | _ :: arg :: _ =>
    let city_query := pyLower arg
    match CITIES.find? (fun c =>
        pyIn city_query (pyLower c.1) || pyIn (pyLower c.1) city_query) with
    | some c =>
      match get_weather c.1 (fetch c.1 c.2.1 c.2.2) with
      | .error e => .error e
      | .ok (some data) =>
        .ok [Effect.fetchWeather c.1, Effect.sendMessage (format_weather data)]
      | .ok none =>
        .ok [Effect.fetchWeather c.1, Effect.sendMessage (weatherApology c.1)]
    | none => .ok [Effect.sendMessage (cityNotFoundText arg)]
  | _ => .ok [Effect.sendMessage cityUsageText]

/-- The body of cmd_currency after parts = message.text.split(). -/
def cmd_currency_parts (parts : List String)
    (out : HttpOutcome (List RateItem)) : List Effect :=
  match parts with
  | _ :: amountRaw :: rest =>
    let amount_str := commaToDot amountRaw
    let currencyTok : Option String :=
      match rest with
      | c :: _ => some (pyUpper c)
      | [] => none
    match pyFloat amount_str with
    | none => [Effect.sendMessage usageBadFormat]
    | some amount =>
      let currency :=
        match currencyTok with
        | some c => c
        | none => if 100 ≤ amount then "UAH" else "EUR"
      if currency = "EUR" ∨ currency = "UAH" then
        let rates := get_exchange_rates out
        if currency = "EUR" then
          let cr := convert_currency amount "EUR" "UAH" rates
          [Effect.fetchRates, Effect.sendMessage (convReplyEUR amount cr.1 cr.2)]
        else
          let cr := convert_currency amount "UAH" "EUR" rates
          [Effect.fetchRates, Effect.sendMessage (convReplyUAH amount cr.1 cr.2)]
      else [Effect.sendMessage usageUnsupported]
  | _ =>
    [Effect.fetchRates,
     Effect.sendMessage (currencyMenuText (ratesGet (get_exchange_rates out) "EUR" 1))]

/-- cmd_currency of main.py. -/
def cmd_currency (text : String) (out : HttpOutcome (List RateItem)) :
    List Effect :=
  cmd_currency_parts (pySplit text) out

/-- process_callback of main.py: dispatch on the button payload. -/
def process_callback (action : String)
    (wfetch : String → Rat → Rat → HttpOutcome WeatherData)
    (ffetch : String → Rat → Rat → HttpOutcome (List ForecastItem))
    (rout : HttpOutcome (List RateItem)) (nowHHMM : String) :
    Except Unit (List Effect) :=
  if action = "weather_all" then
    match weatherLoop wfetch CITIES with
    | .error e => .error e
    | .ok effs =>
      .ok (Effect.editMessage weatherLoadingText :: effs ++ [Effect.ack])
  else if action = "forecast_all" then
    match forecastLoop ffetch CITIES with
    | .error e => .error e
    | .ok effs =>
      .ok (Effect.editMessage forecastLoadingText :: effs ++ [Effect.ack])
  else if action = "list_cities" then
    .ok [Effect.editMessage citiesText, Effect.ack]
  else if pyStartsWith action "weather_" then
    let city_name := pyReplace action "weather_" ""
    let loading := Effect.sendMessage
      ("🔄 Загружаю погоду для города " ++ city_name ++ "...")
    match CITIES.find? (fun c => c.1 = city_name) with
    | some c =>
      match get_weather c.1 (wfetch c.1 c.2.1 c.2.2) with
      | .error e => .error e
      | .ok (some data) =>
        .ok [loading, Effect.fetchWeather c.1,
             Effect.sendMessage (format_weather data), Effect.ack]
      | .ok none =>
        .ok [loading, Effect.fetchWeather c.1,
             Effect.sendMessage (weatherApology city_name), Effect.ack]
    | none => .ok [loading, Effect.ack]
  else if pyStartsWith action "forecast_" then
    let city_name := pyReplace action "forecast_" ""
    let loading := Effect.sendMessage
      ("🔄 Загружаю прогноз на 3 дня для города " ++ city_name ++ "...")
    match CITIES.find? (fun c => c.1 = city_name) with
    | some c =>
      match get_forecast (ffetch c.1 c.2.1 c.2.2) with
      | .error e => .error e
      | .ok (some days) =>
        .ok [loading, Effect.fetchForecast c.1,
             Effect.sendMessage (format_forecast c.1 days), Effect.ack]
      | .ok none =>
        .ok [loading, Effect.fetchForecast c.1,
             Effect.sendMessage (forecastApology city_name), Effect.ack]
    | none => .ok [loading, Effect.ack]
  else if action = "currency" then
    .ok [Effect.fetchRates,
         Effect.sendMessage (currencyShortText (ratesGet (get_exchange_rates rout) "EUR" 1)),
         Effect.ack]
  else if action = "currency_rates" then
    .ok [Effect.fetchRates,
         Effect.editMessage (currencyRefreshText (ratesGet (get_exchange_rates rout) "EUR" 1) nowHHMM),
         Effect.ack]
  else if action = "conv_eur_uah" then
    .ok [Effect.sendMessage convEurUahText, Effect.ack]
  else if action = "conv_uah_eur" then
    .ok [Effect.sendMessage convUahEurText, Effect.ack]
  else .ok []

/-! ### Spec-side helper descriptions used by the claim statements -/

/-- The reply the weather loop produces for one configured city: the
    formatted reading on a 200 response, the apology otherwise. -/
def weatherReply (fetch : String → Rat → Rat → HttpOutcome WeatherData)
    (c : String × Rat × Rat) : Effect :=
  match get_weather c.1 (fetch c.1 c.2.1 c.2.2) with
  | .ok (some data) => .sendMessage (format_weather data)
  | _ => .sendMessage (weatherApology c.1)

/-- The payloads whose branch of process_callback edits a message in place. -/
def editingActions : List String :=
  ["weather_all", "forecast_all", "list_cities", "currency_rates"]

/-- The dates of the midday samples in upstream order of first occurrence,
    given the dates already seen. -/
def middayDatesFO (seen : List String) : List ForecastItem → List String
  | [] => []
  | it :: rest =>
    if isMidday it then
      if dateOf it ∈ seen then middayDatesFO seen rest
      else dateOf it :: middayDatesFO (dateOf it :: seen) rest
    else middayDatesFO seen rest

/-- The last midday sample carrying a given date, if any. -/
def lastMidday (k : String) : List ForecastItem → Option ForecastItem
  | [] => none
  | it :: rest =>
    match lastMidday k rest with
    | some r => some r
    | none => if isMidday it ∧ dateOf it = k then some it else none

/-- Lookup in the insertion-ordered association list. -/
def alGet (k : String) : List (String × ForecastDay) → Option ForecastDay
  | [] => none
  | p :: rest => if p.1 = k then some p.2 else alGet k rest

/-! ### Concrete inputs used by witnesses and counterexamples -/

/-- A sample current-weather body with non-integral temperatures. -/
def wSample : WeatherData :=
  { name := "x",
    main := { temp := 21.56, feels_like := 20.5, humidity := 60, pressure := 1013 },
    weather0 := { description := "ясно", icon := "01d" },
    windSpeed := 3.5, dt := 1700000000 }

/-- A fetch oracle answering every request with HTTP 404. -/
def fetch404 : String → Rat → Rat → HttpOutcome WeatherData :=
  fun _ _ _ => .response 404 wSample

/-- A weather fetch oracle whose every request raises. -/
def fetchExnW : String → Rat → Rat → HttpOutcome WeatherData :=
  fun _ _ _ => .exn

/-- A forecast fetch oracle whose every request raises. -/
def fetchExnF : String → Rat → Rat → HttpOutcome (List ForecastItem) :=
  fun _ _ _ => .exn

/-- A forecast fetch oracle answering every request with HTTP 404. -/
def ffetch404 : String → Rat → Rat → HttpOutcome (List ForecastItem) :=
  fun _ _ _ => .response 404 []

/-- Two midday samples of the same calendar date with different readings. -/
def itemA : ForecastItem :=
  { dt_txt := "2024-01-01 12:00:00", temp := 10, feels_like := 9,
    description := "a", icon := "10d", humidity := 70, wind := 4 }

def itemB : ForecastItem :=
  { dt_txt := "2024-01-01 12:00:00", temp := 20, feels_like := 19,
    description := "b", icon := "10d", humidity := 60, wind := 3 }

/-- A realistic upstream series: four distinct days, one midday sample each,
    plus a non-midday sample. -/
def fcItems : List ForecastItem :=
  [{ dt_txt := "2024-01-01 09:00:00", temp := 1, feels_like := 1,
     description := "a", icon := "10d", humidity := 70, wind := 4 },
   { dt_txt := "2024-01-01 12:00:00", temp := 2, feels_like := 2,
     description := "b", icon := "10d", humidity := 60, wind := 3 },
   { dt_txt := "2024-01-02 12:00:00", temp := 3, feels_like := 3,
     description := "c", icon := "10d", humidity := 60, wind := 3 },
   { dt_txt := "2024-01-03 12:00:00", temp := 4, feels_like := 4,
     description := "d", icon := "10d", humidity := 60, wind := 3 },
   { dt_txt := "2024-01-04 12:00:00", temp := 5, feels_like := 5,
     description := "e", icon := "10d", humidity := 60, wind := 3 }]

/-! ### Helper lemmas -/

theorem str_ext {s t : String} (h : s.data = t.data) : s = t := by
  cases s
  cases t
  exact congrArg String.mk h

@[simp] theorem str_data_append (s t : String) :
    (s ++ t).data = s.data ++ t.data := by
  cases s
  cases t
  rfl

@[simp] theorem str_data_empty : ("" : String).data = [] := rfl

theorem str_empty_append (s : String) : "" ++ s = s := by
  apply str_ext
  simp

theorem str_append_empty (s : String) : s ++ "" = s := by
  apply str_ext
  simp

theorem str_append_assoc (a b c : String) : a ++ b ++ c = a ++ (b ++ c) := by
  apply str_ext
  simp

theorem str_foldl_append (l : List String) (init : String) :
    l.foldl (fun r s => r ++ s) init =
      init ++ l.foldl (fun r s => r ++ s) "" := by
  induction l generalizing init with
  | nil => simp [str_append_empty]
  | cons a l ih =>
    simp only [List.foldl_cons]
    rw [ih (init ++ a), ih ("" ++ a), str_empty_append, str_append_assoc]

theorem str_join_cons (a : String) (l : List String) :
    String.join (a :: l) = a ++ String.join l := by
  show (a :: l).foldl (fun r s => r ++ s) "" = a ++ String.join l
  simp only [List.foldl_cons]
  rw [str_foldl_append l ("" ++ a), str_empty_append]
  rfl

theorem forecastBlock_eq_spec (day : ForecastDay) :
    forecastBlock day = forecastBlockSpecRounded day := by
  apply str_ext
  simp [forecastBlock, forecastBlockSpecRounded, String.join]

theorem format_weather_eq_specNative (data : WeatherData) :
    format_weather data = format_weather_specNative data := by
  apply str_ext
  simp [format_weather, format_weather_specNative, String.join]

theorem foldl_block_join (l : List ForecastDay) (init : String) :
    l.foldl (fun res day => res ++ forecastBlock day) init =
      init ++ String.join (l.map forecastBlock) := by
  induction l generalizing init with
  | nil => simp [str_append_empty, String.join]
  | cons a l ih =>
    simp only [List.foldl_cons, List.map_cons]
    rw [ih (init ++ forecastBlock a), str_join_cons, str_append_assoc]

/-! ### C9: display rounding -/

/-- Claim C9 counterexample: the claim states that in every formatted weather
    reply the displayed temperature is the input rounded to the nearest
    integer; on a reading of 21.56 °C the weather reply displays 21.56, not
    22, so the claim fails on format_weather. -/
theorem c9_rounding_counterexample :
    format_weather wSample ≠ format_weather_specRounded wSample := by decide

/-- Claim C9 (amended): the forecast reply displays temperature and
    feels-like rounded to the nearest integer (Python round, half to even),
    while the current-weather reply displays them at native precision,
    unrounded. -/
theorem c9_rounding_amended :
    (∀ city days, format_forecast city days = format_forecast_specRounded city days) ∧
    (∀ data, format_weather data = format_weather_specNative data) := by
  refine ⟨fun city days => ?_, format_weather_eq_specNative⟩
  unfold format_forecast format_forecast_specRounded
  rw [foldl_block_join]
  have hm : days.map forecastBlock = days.map forecastBlockSpecRounded := by
    induction days with
    | nil => rfl
    | cons d l ih => simp [ih, forecastBlock_eq_spec d]
  rw [hm]

/-! ### C2: the currency fallback -/

/-- Claim C2 (code bug): get_exchange_rates indeed never fails outwardly,
    but on every failure path (non-200 status, raised exception, or a 200
    body with no EUR entry) the returned dict is EXCHANGE_RATES, whose EUR
    entry — the value every caller reads as the UAH-per-EUR rate — is 1.0,
    not the intended 44.5 (the 44.5 sits under the UAH key, which no caller
    reads as the rate).  Converting 100 EUR during an outage therefore
    quotes 1 EUR = 1.00 UAH. -/
theorem c2_fallback_rate_code_bug :
    get_exchange_rates (.response 500 []) = EXCHANGE_RATES ∧
    get_exchange_rates .exn = EXCHANGE_RATES ∧
    get_exchange_rates (.response 200 [{ ccy := some "USD", sale := some "41.9" }]) =
      { eur := 1, uah := 44.5 } ∧
    ratesGet EXCHANGE_RATES "EUR" 1 = 1 ∧ (1 : Rat) ≠ 44.5 ∧
    cmd_currency_parts ["/currency", "100", "EUR"] (.response 500 []) =
      [Effect.fetchRates, Effect.sendMessage (convReplyEUR 100 100 1)] := by
  refine ⟨rfl, rfl, by decide, by decide, by decide, by decide⟩

/-! ### C3: positivity of the rate -/

/-- Claim C3 counterexample: the claim states the eur-per-unit value of
    every fetch result is strictly positive; but a 200 response whose EUR
    entry quotes sale 0 is accepted unvalidated, making the value 0. -/
theorem c3_positive_rate_counterexample :
    ¬ (0 < (get_exchange_rates
        (.response 200 [{ ccy := some "EUR", sale := some "0" }])).eur) := by
  decide

theorem processItems_pos (items : List RateItem) (acc : Rates)
    (hacc : 0 < acc.eur)
    (h : ∀ it ∈ items, it.ccy = some "EUR" →
      0 < (pyFloat (it.sale.getD "44.5")).getD 1) :
    0 < (processItems items acc).eur := by
  induction items generalizing acc with
  | nil => simpa [processItems] using hacc
  | cons it rest ih =>
    by_cases hc : it.ccy = some "EUR"
    · cases hp : pyFloat (it.sale.getD "44.5") with
      | some v =>
        have hv : 0 < v := by
          have := h it (by simp) hc
          rwa [hp, Option.getD_some] at this
        simp only [processItems, hc, if_pos, hp]
        exact ih _ hv (fun x hx hcx => h x (by simp [hx]) hcx)
      | none =>
        simp only [processItems, hc, if_pos, hp]
        norm_num [EXCHANGE_RATES]
    · simp only [processItems, hc, if_neg, ite_false]
      exact ih _ hacc (fun x hx hcx => h x (by simp [hx]) hcx)

/-- Claim C3 (amended): the eur value read by the currency handlers is
    strictly positive provided every EUR entry of a successful response
    carries a sale quote that parses to a positive number; on every failure
    path the substituted value is 1.0 — positive, though not the 44.5 the
    spec names. -/
theorem c3_positive_rate_amended (out : HttpOutcome (List RateItem))
    (h : ∀ items, out = .response 200 items → ∀ it ∈ items,
      it.ccy = some "EUR" → 0 < (pyFloat (it.sale.getD "44.5")).getD 1) :
    0 < (get_exchange_rates out).eur := by
  cases out with
  | exn => norm_num [get_exchange_rates, EXCHANGE_RATES]
  | response s items =>
    by_cases hs : s = 200
    · subst hs
      simp only [get_exchange_rates, if_pos]
      exact processItems_pos items _ (by norm_num) (h items rfl)
    · simp only [get_exchange_rates, if_neg hs]
      norm_num [EXCHANGE_RATES]

/-- Witness for the amended C3 theorem at a concrete 200 response quoting
    sale 48.5 for EUR. -/
theorem c3_witness :
    (∀ it ∈ [({ ccy := some "EUR", sale := some "48.5" } : RateItem)],
      it.ccy = some "EUR" → 0 < (pyFloat (it.sale.getD "44.5")).getD 1) ∧
    0 < (get_exchange_rates
      (.response 200 [{ ccy := some "EUR", sale := some "48.5" }])).eur := by
  refine ⟨by decide, c3_positive_rate_amended _ ?_⟩
  intro items hi
  injection hi with _ h2
  subst h2
  decide

/-! ### C1: weather fetch error behaviour -/

theorem weatherLoop_error_iff
    (fetch : String → Rat → Rat → HttpOutcome WeatherData)
    (l : List (String × Rat × Rat)) :
    weatherLoop fetch l = .error () ↔
      ∃ c ∈ l, fetch c.1 c.2.1 c.2.2 = .exn := by
  induction l with
  | nil => simp [weatherLoop]
  | cons c rest ih =>
    cases hf : fetch c.1 c.2.1 c.2.2 with
    | exn =>
      have hL : weatherLoop fetch (c :: rest) = .error () := by
        simp [weatherLoop, get_weather, hf]
      rw [hL]
      constructor
      · intro _
        exact ⟨c, List.mem_cons_self c rest, hf⟩
      · intro _
        rfl
    | response s b =>
      have hgw : ∃ w, get_weather c.1 (fetch c.1 c.2.1 c.2.2) = .ok w := by
        rw [hf]
        unfold get_weather
        by_cases hs : s = 200
        · subst hs
          exact ⟨some { b with name := c.1 }, by simp⟩
        · exact ⟨none, by simp [hs]⟩
      obtain ⟨w, hw⟩ := hgw
      have hne : fetch c.1 c.2.1 c.2.2 ≠ .exn := by
        rw [hf]
        intro hx
        cases hx
      cases hrest : weatherLoop fetch rest with
      | error e =>
        cases e
        have hL : weatherLoop fetch (c :: rest) = .error () := by
          simp [weatherLoop, hw, hrest]
        rw [hL]
        constructor
        · intro _
          obtain ⟨c2, hc2, he2⟩ := ih.mp hrest
          exact ⟨c2, List.mem_cons_of_mem _ hc2, he2⟩
        · intro _
          rfl
      | ok tail =>
        simp only [weatherLoop, hw, hrest]
        constructor
        · intro hcontra
          exact absurd hcontra (by simp)
        · rintro ⟨c2, hc2, he2⟩
          rcases List.mem_cons.mp hc2 with rfl | hc2
          · exact absurd he2 hne
          · have hcontra := ih.mpr ⟨c2, hc2, he2⟩
            rw [hrest] at hcontra
            exact absurd hcontra (by simp)

/-- Claim C1 counterexample: the claim states get_weather returns an absent
    result on a network or timeout error and never raises, and that no error
    propagates out of the weather handler; in fact get_weather has no
    try / except, so a raised fetch error propagates out of it and out of
    cmd_weather. -/
theorem c1_error_propagation_counterexample :
    get_weather "Кёльн" .exn = .error () ∧
    cmd_weather fetchExnW = .error () := by
  exact ⟨rfl, rfl⟩

/-- Claim C1 (amended): get_weather returns an absent result on every
    non-200 HTTP status without raising, and the body with the configured
    name on a 200 response; but a raised network or timeout error propagates
    out of get_weather, and out of the cmd_weather handler exactly when some
    configured location fetch raises — that failure path ends with no
    user-visible apology from the handler. -/
theorem c1_get_weather_amended :
    (∀ city s b, s ≠ 200 → get_weather city (.response s b) = .ok none) ∧
    (∀ city b, get_weather city (.response 200 b) =
      .ok (some { b with name := city })) ∧
    (∀ city, get_weather city .exn = .error ()) ∧
    (∀ fetch, cmd_weather fetch = .error () ↔
      ∃ c ∈ CITIES, fetch c.1 c.2.1 c.2.2 = .exn) := by
  refine ⟨?_, fun city b => by simp [get_weather], fun city => rfl, ?_⟩
  · intro city s b hs
    simp [get_weather, hs]
  · intro fetch
    unfold cmd_weather
    cases hl : weatherLoop fetch CITIES with
    | error e =>
      cases e
      simpa using (weatherLoop_error_iff fetch CITIES).mp hl
    | ok effs =>
      constructor
      · intro hcontra
        cases hcontra
      · intro hex
        have hcontra : weatherLoop fetch CITIES = .error () :=
          (weatherLoop_error_iff fetch CITIES).mpr hex
        rw [hl] at hcontra
        cases hcontra

/-- Witness for the amended C1 theorem: a 404 response yields an absent
    result without raising. -/
theorem c1_witness :
    (404 : Nat) ≠ 200 ∧
    get_weather "Кёльн" (.response 404 wSample) = .ok none := by
  exact ⟨by decide, c1_get_weather_amended.1 "Кёльн" 404 wSample (by decide)⟩

/-! ### C5: one reply per configured city -/

theorem weatherLoop_ok_filter
    (fetch : String → Rat → Rat → HttpOutcome WeatherData)
    (l : List (String × Rat × Rat))
    (h : ∀ n la lo, fetch n la lo ≠ .exn) :
    ∃ effs, weatherLoop fetch l = .ok effs ∧
      effs.filter isReply = l.map (weatherReply fetch) ∧
      effs.length = 2 * l.length := by
  induction l with
  | nil => exact ⟨[], rfl, rfl, rfl⟩
  | cons c rest ih =>
    obtain ⟨tail, htail, hfil, hlen⟩ := ih
    cases hf : fetch c.1 c.2.1 c.2.2 with
    | exn => exact absurd hf (h _ _ _)
    | response s b =>
      obtain ⟨w, hgw⟩ :
          ∃ w, get_weather c.1 (fetch c.1 c.2.1 c.2.2) = .ok w := by
        rw [hf]
        unfold get_weather
        by_cases hs : s = 200
        · subst hs
          exact ⟨some { b with name := c.1 }, by simp⟩
        · exact ⟨none, by simp [hs]⟩
      cases w with
      | some d =>
        refine ⟨Effect.fetchWeather c.1 ::
          Effect.sendMessage (format_weather d) :: tail, ?_, ?_, ?_⟩
        · simp only [weatherLoop, hgw, htail]
        · have hrep : weatherReply fetch c =
              Effect.sendMessage (format_weather d) := by
            unfold weatherReply
            rw [hgw]
          simp [List.filter_cons, isReply, hfil, hrep]
        · simp only [List.length_cons, hlen]
          omega
      | none =>
        refine ⟨Effect.fetchWeather c.1 ::
          Effect.sendMessage (weatherApology c.1) :: tail, ?_, ?_, ?_⟩
        · simp only [weatherLoop, hgw, htail]
        · have hrep : weatherReply fetch c =
              Effect.sendMessage (weatherApology c.1) := by
            unfold weatherReply
            rw [hgw]
          simp [List.filter_cons, isReply, hfil, hrep]
        · simp only [List.length_cons, hlen]
          omega

/-- Claim C5: over the configured city list, whenever every per-city fetch
    completes with an HTTP response (present on 200, absent otherwise), the
    weather_all handler emits, after its loading notice, exactly one
    outbound reply per configured city, in list order, each being either the
    formatted reading or the apology naming that city; an individual
    failure never aborts the remaining cities. -/
theorem c5_weather_all_replies
    (fetch : String → Rat → Rat → HttpOutcome WeatherData)
    (h : ∀ n la lo, fetch n la lo ≠ .exn) :
    ∃ effs, cmd_weather fetch = .ok (Effect.sendMessage weatherLoadingText :: effs) ∧
      effs.filter isReply = CITIES.map (weatherReply fetch) ∧
      (CITIES.map (weatherReply fetch)).length = CITIES.length ∧
      ∀ c ∈ CITIES,
        (∃ d, weatherReply fetch c = .sendMessage (format_weather d)) ∨
        weatherReply fetch c = .sendMessage (weatherApology c.1) := by
  obtain ⟨effs, hL, hfil, _⟩ := weatherLoop_ok_filter fetch CITIES h
  refine ⟨effs, ?_, hfil, by simp, ?_⟩
  · unfold cmd_weather
    rw [hL]
  · intro c _
    unfold weatherReply
    cases hf : fetch c.1 c.2.1 c.2.2 with
    | exn => exact absurd hf (h _ _ _)
    | response s b =>
      unfold get_weather
      by_cases hs : s = 200
      · subst hs
        exact Or.inl ⟨{ b with name := c.1 }, by simp⟩
      · right
        simp [hs]

/-- Witness for the C5 theorem: the all-404 oracle, under which every city
    receives the apology reply. -/
theorem c5_witness :
    (∀ n la lo, fetch404 n la lo ≠ HttpOutcome.exn) ∧
    (∃ effs, cmd_weather fetch404 =
        .ok (Effect.sendMessage weatherLoadingText :: effs) ∧
      effs.filter isReply = CITIES.map (weatherReply fetch404) ∧
      (CITIES.map (weatherReply fetch404)).length = CITIES.length ∧
      ∀ c ∈ CITIES,
        (∃ d, weatherReply fetch404 c = .sendMessage (format_weather d)) ∨
        weatherReply fetch404 c = .sendMessage (weatherApology c.1)) := by
  have hne : ∀ n la lo, fetch404 n la lo ≠ HttpOutcome.exn := by
    intro n la lo hx
    cases hx
  exact ⟨hne, c5_weather_all_replies fetch404 hne⟩

/-! ### C7: the /city lookup -/

/-- Claim C7 counterexample: the query кёльнх lower-cased is a substring of
    no configured lower-cased name, so by the claim /city must answer
    not-found and issue no provider call; but the code also matches in the
    reverse direction (configured name inside the query), so Кёльн is
    selected and a provider call is issued. -/
theorem c7_substring_match_counterexample :
    (CITIES.all (fun c => !(pyIn (pyLower "кёльнх") (pyLower c.1)))) = true ∧
    cmd_city "/city кёльнх" fetch404 =
      .ok [Effect.fetchWeather "Кёльн",
           Effect.sendMessage (weatherApology "Кёльн")] := by
  exact ⟨by decide, by decide⟩

/-- Claim C7 (amended): given /city with an argument, the handler selects
    the first configured location (list order) whose lowered name contains
    the lowered query or is contained in it; with no such location it
    replies not-found and issues no provider call, and with one it issues
    the provider call for that location and replies with the reading or the
    apology. -/
theorem c7_city_match_amended (text arg t0 : String)
    (fetch : String → Rat → Rat → HttpOutcome WeatherData)
    (hp : pySplitMax1 text = [t0, arg]) :
    (CITIES.find? (fun c => pyIn (pyLower arg) (pyLower c.1) ||
        pyIn (pyLower c.1) (pyLower arg)) = none →
      cmd_city text fetch = .ok [Effect.sendMessage (cityNotFoundText arg)]) ∧
    (∀ c, CITIES.find? (fun c => pyIn (pyLower arg) (pyLower c.1) ||
        pyIn (pyLower c.1) (pyLower arg)) = some c →
      fetch c.1 c.2.1 c.2.2 ≠ .exn →
      ∃ r, cmd_city text fetch =
        .ok [Effect.fetchWeather c.1, Effect.sendMessage r] ∧
        ((∃ d, r = format_weather d) ∨ r = weatherApology c.1)) := by
  constructor
  · intro hnone
    unfold cmd_city
    rw [hp]
    simp only [hnone]
  · intro c hsome hne
    unfold cmd_city
    rw [hp]
    simp only [hsome]
    cases hf : fetch c.1 c.2.1 c.2.2 with
    | exn => exact absurd hf hne
    | response s b =>
      unfold get_weather
      by_cases hs : s = 200
      · subst hs
        simp only [if_pos rfl]
        exact ⟨format_weather { b with name := c.1 },
          rfl, Or.inl ⟨{ b with name := c.1 }, rfl⟩⟩
      · simp only [if_neg hs]
        exact ⟨weatherApology c.1, rfl, Or.inr rfl⟩

/-- Witness for the amended C7 theorem: the query линц matches the
    configured Линц-ам-Райн and triggers exactly one provider call. -/
theorem c7_witness :
    pySplitMax1 "/city линц" = ["/city", "линц"] ∧
    CITIES.find? (fun c => pyIn (pyLower "линц") (pyLower c.1) ||
      pyIn (pyLower c.1) (pyLower "линц")) =
        some ("Линц-ам-Райн", 50.5667, 7.3167) ∧
    fetch404 "Линц-ам-Райн" (50.5667 : Rat) (7.3167 : Rat) ≠ .exn ∧
    (∃ r, cmd_city "/city линц" fetch404 =
      .ok [Effect.fetchWeather "Линц-ам-Райн", Effect.sendMessage r] ∧
      ((∃ d, r = format_weather d) ∨ r = weatherApology "Линц-ам-Райн")) := by
  refine ⟨by decide, by decide, by decide, ?_⟩
  exact (c7_city_match_amended "/city линц" "линц" "/city" fetch404
    (by decide)).2 ("Линц-ам-Райн", 50.5667, 7.3167) (by decide) (by decide)

/-! ### C8: /currency argument handling -/

theorem commaToDot_idem (s : String) :
    commaToDot (commaToDot s) = commaToDot s := by
  unfold commaToDot
  apply str_ext
  simp only [List.map_map]
  apply List.map_congr_left
  intro c _
  by_cases hc : c = ','
  · simp [hc]
  · simp [Function.comp, hc]

/-- Claim C8: the amount accepts a comma as decimal separator (the parse is
    invariant under replacing commas by dots); with the currency token
    omitted the handler behaves exactly as with the explicit token UAH when
    the amount is at least 100 and EUR otherwise; a malformed amount or an
    unsupported currency token yields the usage message with no rate
    provider call. -/
theorem c8_currency_args :
    (∀ t0 s rest out, cmd_currency_parts (t0 :: s :: rest) out =
      cmd_currency_parts (t0 :: commaToDot s :: rest) out) ∧
    (∀ t0 s out a, pyFloat (commaToDot s) = some a →
      cmd_currency_parts [t0, s] out =
        cmd_currency_parts [t0, s, if (100 : Rat) ≤ a then "UAH" else "EUR"] out) ∧
    (∀ t0 s rest out, pyFloat (commaToDot s) = none →
      cmd_currency_parts (t0 :: s :: rest) out =
        [Effect.sendMessage usageBadFormat] ∧
      Effect.fetchRates ∉ [Effect.sendMessage usageBadFormat]) ∧
    (∀ t0 s c rest out a, pyFloat (commaToDot s) = some a →
      pyUpper c ≠ "EUR" → pyUpper c ≠ "UAH" →
      cmd_currency_parts (t0 :: s :: c :: rest) out =
        [Effect.sendMessage usageUnsupported] ∧
      Effect.fetchRates ∉ [Effect.sendMessage usageUnsupported]) := by
  have hUAH : pyUpper "UAH" = "UAH" := by decide
  have hEUR : pyUpper "EUR" = "EUR" := by decide
  refine ⟨?_, ?_, ?_, ?_⟩
  · intro t0 s rest out
    simp only [cmd_currency_parts, commaToDot_idem]
  · intro t0 s out a hparse
    by_cases h100 : (100 : Rat) ≤ a
    · simp only [if_pos h100, cmd_currency_parts, hparse, hUAH]
    · simp only [if_neg h100, cmd_currency_parts, hparse, hEUR]
  · intro t0 s rest out hparse
    refine ⟨?_, by decide⟩
    simp only [cmd_currency_parts, hparse]
  · intro t0 s c rest out a hparse h1 h2
    refine ⟨?_, by decide⟩
    simp only [cmd_currency_parts, hparse]
    simp [h1, h2]

/-- Witness for the C8 theorem at the inputs named by the spec: abc is
    rejected without a provider call, 1000 infers UAH, 50 infers EUR, USD is
    rejected without a provider call, and a comma amount parses as its
    dotted form. -/
theorem c8_witness :
    pyFloat (commaToDot "abc") = none ∧
    cmd_currency_parts ["/currency", "abc"] (.response 500 []) =
      [Effect.sendMessage usageBadFormat] ∧
    pyFloat (commaToDot "1000") = some 1000 ∧
    cmd_currency_parts ["/currency", "1000"] (.response 500 []) =
      cmd_currency_parts ["/currency", "1000",
        if (100 : Rat) ≤ 1000 then "UAH" else "EUR"] (.response 500 []) ∧
    pyFloat (commaToDot "50") = some 50 ∧
    cmd_currency_parts ["/currency", "50"] (.response 500 []) =
      cmd_currency_parts ["/currency", "50",
        if (100 : Rat) ≤ 50 then "UAH" else "EUR"] (.response 500 []) ∧
    pyUpper "usd" ≠ "EUR" ∧ pyUpper "usd" ≠ "UAH" ∧
    cmd_currency_parts ["/currency", "100", "usd"] (.response 500 []) =
      [Effect.sendMessage usageUnsupported] ∧
    cmd_currency_parts ["/currency", "12,5"] (.response 500 []) =
      cmd_currency_parts ["/currency", commaToDot "12,5"] (.response 500 []) := by
  refine ⟨by decide,
    (c8_currency_args.2.2.1 "/currency" "abc" [] (.response 500 []) (by decide)).1,
    by decide,
    c8_currency_args.2.1 "/currency" "1000" (.response 500 []) 1000 (by decide),
    by decide,
    c8_currency_args.2.1 "/currency" "50" (.response 500 []) 50 (by decide),
    by decide, by decide,
    (c8_currency_args.2.2.2 "/currency" "100" "usd" [] (.response 500 []) 100
      (by decide) (by decide) (by decide)).1,
    c8_currency_args.1 "/currency" "12,5" [] (.response 500 [])⟩

/-! ### C6: which actions edit a message in place -/

/-- Claim C6 counterexample: the claim says only the currency_rates action
    edits an existing message; the list_cities action also answers by
    editing the pressed message in place. -/
theorem c6_only_refresh_edits_counterexample :
    process_callback "list_cities" fetchExnW fetchExnF .exn "12:00" =
      .ok [Effect.editMessage citiesText, Effect.ack] ∧
    [Effect.editMessage citiesText, Effect.ack].any isEdit = true ∧
    ("list_cities" : String) ≠ "currency_rates" := by
  exact ⟨by decide, by decide, by decide⟩

/-- Claim C6 (amended): a callback branch that completes edits a message in
    place exactly when the payload is one of weather_all, forecast_all,
    list_cities (loading notice or city list) or currency_rates (the rate
    refresh); every other action's replies are new messages only. -/
theorem c6_edit_actions_amended (action : String)
    (wfetch : String → Rat → Rat → HttpOutcome WeatherData)
    (ffetch : String → Rat → Rat → HttpOutcome (List ForecastItem))
    (rout : HttpOutcome (List RateItem)) (now : String) (effs : List Effect)
    (h : process_callback action wfetch ffetch rout now = .ok effs) :
    (effs.any isEdit = true ↔ action ∈ editingActions) := by
  unfold process_callback at h
  split_ifs at h with h1 h2 h3 h4 h5 h6 h7 h8 h9
  · subst h1
    cases hw : weatherLoop wfetch CITIES <;> rw [hw] at h
    · exact absurd h (by simp)
    · injection h with h0
      subst h0
      exact iff_of_true (by simp [isEdit]) (by decide)
  · subst h2
    cases hw : forecastLoop ffetch CITIES <;> rw [hw] at h
    · exact absurd h (by simp)
    · injection h with h0
      subst h0
      exact iff_of_true (by simp [isEdit]) (by decide)
  · subst h3
    injection h with h0
    subst h0
    exact iff_of_true (by simp [isEdit]) (by decide)
  · have hmem : action ∉ editingActions := by
      intro hmem
      simp only [editingActions, List.mem_cons, List.not_mem_nil, or_false] at hmem
      rcases hmem with rfl | rfl | rfl | rfl
      · exact h1 rfl
      · exact h2 rfl
      · exact h3 rfl
      · exact absurd h4 (by decide)
    simp only [] at h
    cases hfind : CITIES.find? (fun c => c.1 = pyReplace action "weather_" "") <;>
      rw [hfind] at h
    · simp only [] at h
      injection h with h0
      subst h0
      exact iff_of_false (by simp [isEdit]) hmem
    · rename_i c
      simp only [] at h
      cases hg : get_weather c.1 (wfetch c.1 c.2.1 c.2.2) <;> rw [hg] at h
      · exact absurd h (by simp)
      · rename_i w
        cases w
        · injection h with h0
          subst h0
          exact iff_of_false (by simp [isEdit]) hmem
        · injection h with h0
          subst h0
          exact iff_of_false (by simp [isEdit]) hmem
  · have hmem : action ∉ editingActions := by
      intro hmem
      simp only [editingActions, List.mem_cons, List.not_mem_nil, or_false] at hmem
      rcases hmem with rfl | rfl | rfl | rfl
      · exact h1 rfl
      · exact h2 rfl
      · exact h3 rfl
      · exact absurd h5 (by decide)
    simp only [] at h
    cases hfind : CITIES.find? (fun c => c.1 = pyReplace action "forecast_" "") <;>
      rw [hfind] at h
    · simp only [] at h
      injection h with h0
      subst h0
      exact iff_of_false (by simp [isEdit]) hmem
    · rename_i c
      simp only [] at h
      cases hg : get_forecast (ffetch c.1 c.2.1 c.2.2) <;> rw [hg] at h
      · exact absurd h (by simp)
      · rename_i w
        cases w
        · injection h with h0
          subst h0
          exact iff_of_false (by simp [isEdit]) hmem
        · injection h with h0
          subst h0
          exact iff_of_false (by simp [isEdit]) hmem
  · subst h6
    injection h with h0
    subst h0
    exact iff_of_false (by simp [isEdit]) (by decide)
  · subst h7
    injection h with h0
    subst h0
    exact iff_of_true (by simp [isEdit]) (by decide)
  · subst h8
    injection h with h0
    subst h0
    exact iff_of_false (by simp [isEdit]) (by decide)
  · subst h9
    injection h with h0
    subst h0
    exact iff_of_false (by simp [isEdit]) (by decide)
  · injection h with h0
    subst h0
    refine iff_of_false (by simp) ?_
    intro hmem
    simp only [editingActions, List.mem_cons, List.not_mem_nil, or_false] at hmem
    rcases hmem with rfl | rfl | rfl | rfl
    · exact h1 rfl
    · exact h2 rfl
    · exact h3 rfl
    · exact h7 rfl

/-- Witness for the amended C6 theorem at the conv_eur_uah action, whose
    reply is a new message, not an edit. -/
theorem c6_witness :
    process_callback "conv_eur_uah" fetchExnW fetchExnF .exn "12:00" =
      .ok [Effect.sendMessage convEurUahText, Effect.ack] ∧
    ([Effect.sendMessage convEurUahText, Effect.ack].any isEdit = true ↔
      "conv_eur_uah" ∈ editingActions) := by
  exact ⟨by decide, c6_edit_actions_amended "conv_eur_uah" fetchExnW fetchExnF
    .exn "12:00" _ (by decide)⟩

/-! ### C10: unknown city payloads -/

theorem leadsWith_self_append (p x : List Char) :
    leadsWith p (p ++ x) = true := by
  induction p with
  | nil => rfl
  | cons c rest ih => simp [leadsWith, ih]

theorem pyStartsWith_append (p x : String) :
    pyStartsWith (p ++ x) p = true := by
  unfold pyStartsWith
  rw [str_data_append]
  exact leadsWith_self_append p.data x.data

theorem str_append_cancel {p a b : String} (h : p ++ a = p ++ b) : a = b := by
  apply str_ext
  have hd := congrArg String.data h
  simp only [str_data_append] at hd
  exact List.append_cancel_left hd

/-- Claim C10 counterexample: the claim quantifies over every payload
    weather_X with X no configured name; X = all is such a payload, yet the
    handler does not fall into the silent branch — it runs the weather_all
    action and produces per-city replies. -/
theorem c10_unknown_city_counterexample :
    ("all" : String) ∉ CITIES.map (fun c => c.1) ∧
    process_callback ("weather_" ++ "all") fetch404 fetchExnF .exn "12:00" ≠
      .ok [Effect.sendMessage ("🔄 Загружаю погоду для города " ++
        pyReplace ("weather_" ++ "all") "weather_" "" ++ "..."),
        Effect.ack] := by
  exact ⟨by decide, by decide⟩

/-- Claim C10 (amended): for a payload weather_X or forecast_X other than
    the fixed actions (X not all), when the prefix-stripped residue matches
    no configured name the handler sends only the loading message and the
    acknowledgement — a silent no-op with no reply and no apology. -/
theorem c10_unknown_city_amended :
    (∀ x wfetch ffetch rout now, x ≠ "all" →
      pyReplace ("weather_" ++ x) "weather_" "" ∉ CITIES.map (fun c => c.1) →
      process_callback ("weather_" ++ x) wfetch ffetch rout now =
        .ok [Effect.sendMessage ("🔄 Загружаю погоду для города " ++
          pyReplace ("weather_" ++ x) "weather_" "" ++ "..."), Effect.ack]) ∧
    (∀ x wfetch ffetch rout now, x ≠ "all" →
      pyReplace ("forecast_" ++ x) "forecast_" "" ∉ CITIES.map (fun c => c.1) →
      process_callback ("forecast_" ++ x) wfetch ffetch rout now =
        .ok [Effect.sendMessage ("🔄 Загружаю прогноз на 3 дня для города " ++
          pyReplace ("forecast_" ++ x) "forecast_" "" ++ "..."),
          Effect.ack]) := by
  constructor
  · intro x wfetch ffetch rout now hx hnot
    have e1 : ("weather_" ++ x) ≠ "weather_all" := by
      intro he
      apply hx
      have hlit : ("weather_all" : String) = "weather_" ++ "all" := by decide
      rw [hlit] at he
      exact str_append_cancel he
    have e2 : ("weather_" ++ x) ≠ "forecast_all" := by
      intro he
      have hw := pyStartsWith_append "weather_" x
      rw [he] at hw
      exact absurd hw (by decide)
    have e3 : ("weather_" ++ x) ≠ "list_cities" := by
      intro he
      have hw := pyStartsWith_append "weather_" x
      rw [he] at hw
      exact absurd hw (by decide)
    have hfind : CITIES.find?
        (fun c => c.1 = pyReplace ("weather_" ++ x) "weather_" "") = none := by
      rw [List.find?_eq_none]
      intro c hc
      simp only [decide_eq_true_eq]
      intro heq
      exact hnot (List.mem_map.mpr ⟨c, hc, heq⟩)
    unfold process_callback
    rw [if_neg e1, if_neg e2, if_neg e3,
      if_pos (pyStartsWith_append "weather_" x)]
    simp only [hfind]
  · intro x wfetch ffetch rout now hx hnot
    have e1 : ("forecast_" ++ x) ≠ "weather_all" := by
      intro he
      have hw := pyStartsWith_append "forecast_" x
      rw [he] at hw
      exact absurd hw (by decide)
    have e2 : ("forecast_" ++ x) ≠ "forecast_all" := by
      intro he
      apply hx
      have hlit : ("forecast_all" : String) = "forecast_" ++ "all" := by decide
      rw [hlit] at he
      exact str_append_cancel he
    have e3 : ("forecast_" ++ x) ≠ "list_cities" := by
      intro he
      have hw := pyStartsWith_append "forecast_" x
      rw [he] at hw
      exact absurd hw (by decide)
    have e4 : pyStartsWith ("forecast_" ++ x) "weather_" = false := by
      unfold pyStartsWith
      rw [str_data_append]
      rfl
    have hfind : CITIES.find?
        (fun c => c.1 = pyReplace ("forecast_" ++ x) "forecast_" "") = none := by
      rw [List.find?_eq_none]
      intro c hc
      simp only [decide_eq_true_eq]
      intro heq
      exact hnot (List.mem_map.mpr ⟨c, hc, heq⟩)
    unfold process_callback
    rw [if_neg e1, if_neg e2, if_neg e3]
    rw [if_neg (by rw [e4]; exact Bool.false_ne_true)]
    rw [if_pos (pyStartsWith_append "forecast_" x)]
    simp only [hfind]

/-- Witness for the amended C10 theorem at the unknown payload weather_zzz:
    the handler sends the loading message, nothing else, and acknowledges. -/
theorem c10_witness :
    ("zzz" : String) ≠ "all" ∧
    pyReplace ("weather_" ++ "zzz") "weather_" "" ∉ CITIES.map (fun c => c.1) ∧
    process_callback ("weather_" ++ "zzz") fetchExnW fetchExnF .exn "12:00" =
      .ok [Effect.sendMessage ("🔄 Загружаю погоду для города " ++
        pyReplace ("weather_" ++ "zzz") "weather_" "" ++ "..."),
        Effect.ack] := by
  exact ⟨by decide, by decide,
    c10_unknown_city_amended.1 "zzz" fetchExnW fetchExnF .exn "12:00"
      (by decide) (by decide)⟩

/-! ### C4: forecast grouping -/

theorem dictInsert_fst_mem (k : String) (v : ForecastDay)
    (l : List (String × ForecastDay)) (h : k ∈ l.map Prod.fst) :
    (dictInsert k v l).map Prod.fst = l.map Prod.fst := by
  induction l with
  | nil => simp at h
  | cons p rest ih =>
    by_cases hp : p.1 = k
    · simp [dictInsert, hp]
    · simp only [List.map_cons, List.mem_cons] at h
      rcases h with h | h
      · exact absurd h.symm hp
      · simp [dictInsert, hp, ih h]

theorem dictInsert_fst_new (k : String) (v : ForecastDay)
    (l : List (String × ForecastDay)) (h : k ∉ l.map Prod.fst) :
    (dictInsert k v l).map Prod.fst = l.map Prod.fst ++ [k] := by
  induction l with
  | nil => simp [dictInsert]
  | cons p rest ih =>
    have hp : ¬ p.1 = k := by
      intro he
      exact h (by simp [he])
    have hr : k ∉ rest.map Prod.fst := fun hm => h (by simp [hm])
    simp [dictInsert, hp, ih hr]

theorem middayDatesFO_congr (items : List ForecastItem) :
    ∀ seen seen2, (∀ s, s ∈ seen ↔ s ∈ seen2) →
    middayDatesFO seen items = middayDatesFO seen2 items := by
  induction items with
  | nil =>
    intro _ _ _
    rfl
  | cons it rest ih =>
    intro seen seen2 h
    cases hm : isMidday it with
    | false => simp [middayDatesFO, hm, ih seen seen2 h]
    | true =>
      by_cases hs : dateOf it ∈ seen
      · have hs2 : dateOf it ∈ seen2 := (h _).mp hs
        simp [middayDatesFO, hm, hs, hs2, ih seen seen2 h]
      · have hs2 : dateOf it ∉ seen2 := fun hx => hs ((h _).mpr hx)
        have hext : ∀ s, s ∈ dateOf it :: seen ↔ s ∈ dateOf it :: seen2 := by
          intro s
          simp [h s]
        simp [middayDatesFO, hm, hs, hs2, ih _ _ hext]

theorem dailyFold_keys (items : List ForecastItem) :
    ∀ acc, (dailyFold acc items).map Prod.fst =
      acc.map Prod.fst ++ middayDatesFO (acc.map Prod.fst) items := by
  induction items with
  | nil =>
    intro acc
    simp [dailyFold, middayDatesFO]
  | cons it rest ih =>
    intro acc
    cases hm : isMidday it with
    | false =>
      simp only [dailyFold, hm, Bool.false_eq_true, if_neg, ite_false]
      rw [ih]
      simp [middayDatesFO, hm]
    | true =>
      by_cases hs : dateOf it ∈ acc.map Prod.fst
      · have hkeys := dictInsert_fst_mem (dateOf it) (forecastItemToDay it) acc hs
        simp only [dailyFold, hm, ite_true]
        rw [ih, hkeys]
        simp [middayDatesFO, hm, hs]
      · have hkeys := dictInsert_fst_new (dateOf it) (forecastItemToDay it) acc hs
        simp only [dailyFold, hm, ite_true]
        rw [ih, hkeys]
        have hcongr : middayDatesFO (acc.map Prod.fst ++ [dateOf it]) rest =
            middayDatesFO (dateOf it :: acc.map Prod.fst) rest := by
          apply middayDatesFO_congr
          intro s
          simp [or_comm]
        rw [hcongr]
        simp [middayDatesFO, hm, hs]

theorem middayDatesFO_nodup (items : List ForecastItem) :
    ∀ seen, (middayDatesFO seen items).Nodup ∧
      ∀ s ∈ middayDatesFO seen items, s ∉ seen := by
  induction items with
  | nil =>
    intro seen
    constructor
    · exact List.nodup_nil
    · simp [middayDatesFO]
  | cons it rest ih =>
    intro seen
    cases hm : isMidday it with
    | false => simpa [middayDatesFO, hm] using ih seen
    | true =>
      by_cases hs : dateOf it ∈ seen
      · simpa [middayDatesFO, hm, hs] using ih seen
      · obtain ⟨hnd, hnotin⟩ := ih (dateOf it :: seen)
        constructor
        · simp only [middayDatesFO, hm, hs, ite_true, ite_false, List.nodup_cons]
          refine ⟨fun hmem => ?_, hnd⟩
          exact (hnotin _ hmem) (by simp)
        · intro s hsm
          simp only [middayDatesFO, hm, hs, ite_true, ite_false,
            List.mem_cons] at hsm
          rcases hsm with rfl | hsm
          · exact hs
          · intro hx
            exact (hnotin s hsm) (by simp [hx])

theorem dictInsert_snd_date (k : String) (v : ForecastDay)
    (l : List (String × ForecastDay)) (hv : v.date = k)
    (h : ∀ p ∈ l, (p : String × ForecastDay).2.date = p.1) :
    ∀ p ∈ dictInsert k v l, p.2.date = p.1 := by
  induction l with
  | nil =>
    intro p hp
    simp only [dictInsert, List.mem_singleton] at hp
    subst hp
    exact hv
  | cons q rest ih =>
    intro p hp
    by_cases hq : q.1 = k
    · simp only [dictInsert, hq, ite_true, List.mem_cons] at hp
      rcases hp with rfl | hp
      · exact hv
      · exact h p (by simp [hp])
    · simp only [dictInsert, hq, ite_false, List.mem_cons] at hp
      rcases hp with rfl | hp
      · exact h p (by simp)
      · exact ih (fun r hr => h r (by simp [hr])) p hp

theorem dailyFold_snd_date (items : List ForecastItem) :
    ∀ acc, (∀ p ∈ acc, (p : String × ForecastDay).2.date = p.1) →
      ∀ p ∈ dailyFold acc items, p.2.date = p.1 := by
  induction items with
  | nil =>
    intro acc h
    simpa [dailyFold] using h
  | cons it rest ih =>
    intro acc h
    cases hm : isMidday it with
    | false =>
      simp only [dailyFold, hm, Bool.false_eq_true, ite_false]
      exact ih acc h
    | true =>
      simp only [dailyFold, hm, ite_true]
      exact ih _ (dictInsert_snd_date _ _ _ rfl h)

theorem alGet_dictInsert (k2 k : String) (v : ForecastDay)
    (l : List (String × ForecastDay)) :
    alGet k2 (dictInsert k v l) = if k2 = k then some v else alGet k2 l := by
  induction l with
  | nil =>
    by_cases h : k2 = k
    · simp [dictInsert, alGet, h]
    · have h2 : ¬ k = k2 := fun he => h (Eq.symm he)
      simp [dictInsert, alGet, h, h2]
  | cons q rest ih =>
    by_cases hq : q.1 = k
    · simp only [dictInsert, hq, ite_true]
      by_cases h : k2 = k
      · simp [alGet, h]
      · have h2 : ¬ k = k2 := fun he => h (Eq.symm he)
        simp [alGet, h, h2, hq]
    · simp only [dictInsert, hq, ite_false]
      by_cases hqk : q.1 = k2
      · have hk : ¬ k2 = k := by
          intro he
          exact hq (hqk.trans he)
        simp [alGet, hqk, hk]
      · simp [alGet, hqk, ih]

theorem dailyFold_alGet (items : List ForecastItem) :
    ∀ acc k, alGet k (dailyFold acc items) =
      (match lastMidday k items with
       | some it => some (forecastItemToDay it)
       | none => alGet k acc) := by
  induction items with
  | nil =>
    intro acc k
    simp [dailyFold, lastMidday]
  | cons it rest ih =>
    intro acc k
    cases hm : isMidday it with
    | false =>
      have hcond : ¬ (isMidday it = true ∧ dateOf it = k) := by
        intro hc
        rw [hm] at hc
        exact absurd hc.1 (by simp)
      have hlm : lastMidday k (it :: rest) = lastMidday k rest := by
        simp only [lastMidday]
        cases lastMidday k rest
        · simp [hcond]
        · rfl
      rw [hlm]
      simp only [dailyFold, hm, Bool.false_eq_true, ite_false]
      exact ih acc k
    | true =>
      simp only [dailyFold, hm, ite_true]
      rw [ih (dictInsert (dateOf it) (forecastItemToDay it) acc) k]
      cases hl : lastMidday k rest with
      | some r =>
        have hlm : lastMidday k (it :: rest) = some r := by
          simp [lastMidday, hl]
        rw [hlm]
      | none =>
        have hlm : lastMidday k (it :: rest) =
            if isMidday it = true ∧ dateOf it = k then some it else none := by
          simp [lastMidday, hl]
        rw [hlm, alGet_dictInsert]
        by_cases hk : k = dateOf it
        · simp [hm, hk]
        · have hk2 : ¬ (dateOf it = k) := fun he => hk he.symm
          simp [hm, hk, hk2]

theorem alGet_of_mem (l : List (String × ForecastDay))
    (hnd : (l.map Prod.fst).Nodup) :
    ∀ p ∈ l, alGet p.1 l = some p.2 := by
  induction l with
  | nil =>
    intro p hp
    simp at hp
  | cons q rest ih =>
    intro p hp
    rcases List.mem_cons.mp hp with rfl | hp
    · simp [alGet]
    · have hq : ¬ q.1 = p.1 := by
        intro he
        have hmem : p.1 ∈ rest.map Prod.fst := List.mem_map.mpr ⟨p, hp, rfl⟩
        rw [← he] at hmem
        exact (List.nodup_cons.mp (by simpa using hnd)).1 hmem
      simp only [alGet, hq, ite_false]
      exact ih (List.nodup_cons.mp (by simpa using hnd)).2 p hp

theorem lastMidday_mem (k : String) (items : List ForecastItem) :
    ∀ it, lastMidday k items = some it →
      it ∈ items ∧ isMidday it = true ∧ dateOf it = k := by
  induction items with
  | nil =>
    intro it h
    simp [lastMidday] at h
  | cons j rest ih =>
    intro it h
    simp only [lastMidday] at h
    cases hl : lastMidday k rest with
    | some r =>
      rw [hl] at h
      injection h with h0
      cases h0
      obtain ⟨hmem, hmid, hdate⟩ := ih it hl
      exact ⟨by simp [hmem], hmid, hdate⟩
    | none =>
      rw [hl] at h
      by_cases hc : isMidday j = true ∧ dateOf j = k
      · rw [if_pos hc] at h
        injection h with h0
        cases h0
        exact ⟨by simp, hc.1, hc.2⟩
      · rw [if_neg hc] at h
        cases h

/-- Claim C4 counterexample: the claim states that with duplicate midday
    samples of one date the first occurrence wins; on two midday samples of
    2024-01-01 the single returned entry carries the data of the second
    sample, because the dict assignment overwrites the stored value. -/
theorem c4_first_wins_counterexample :
    get_forecast (.response 200 [itemA, itemB]) =
      .ok (some [forecastItemToDay itemB]) ∧
    forecastItemToDay itemB ≠ forecastItemToDay itemA := by
  exact ⟨by decide, by decide⟩

/-- Claim C4 (amended): from a 200 forecast body the result has at most 3
    entries, its dates are the first 3 midday-sample dates in upstream order
    of first occurrence and are pairwise distinct, and every entry carries
    the data of the last (not first) midday sample of its date. -/
theorem c4_forecast_amended (items : List ForecastItem)
    (ds : List ForecastDay)
    (h : get_forecast (.response 200 items) = .ok (some ds)) :
    ds.length ≤ 3 ∧
    ds.map (fun d => d.date) = (middayDatesFO [] items).take 3 ∧
    (ds.map (fun d => d.date)).Nodup ∧
    ∀ d ∈ ds, ∃ it, lastMidday d.date items = some it ∧ it ∈ items ∧
      isMidday it = true ∧ forecastItemToDay it = d := by
  have hds : ds = ((dailyFold [] items).map Prod.snd).take 3 := by
    have h2 := h
    simp only [get_forecast, ite_true] at h2
    injection h2 with h3
    injection h3 with h4
    exact h4.symm
  have hkeys : (dailyFold [] items).map Prod.fst = middayDatesFO [] items := by
    have := dailyFold_keys items []
    simpa using this
  have hkeysnd : ((dailyFold [] items).map Prod.fst).Nodup := by
    rw [hkeys]
    exact (middayDatesFO_nodup items []).1
  have hdate : ∀ p ∈ dailyFold [] items,
      (p : String × ForecastDay).2.date = p.1 :=
    dailyFold_snd_date items [] (by simp)
  have hmapdate : ds.map (fun d => d.date) =
      (middayDatesFO [] items).take 3 := by
    rw [hds, ← hkeys, List.map_take, List.map_map]
    congr 1
    exact List.map_congr_left (fun p hp => hdate p hp)
  refine ⟨?_, hmapdate, ?_, ?_⟩
  · rw [hds]
    have := List.length_take 3 ((dailyFold [] items).map Prod.snd)
    omega
  · rw [hmapdate]
    exact ((middayDatesFO_nodup items []).1).sublist (List.take_sublist _ _)
  · intro d hd
    rw [hds] at hd
    have hd2 : d ∈ (dailyFold [] items).map Prod.snd :=
      (List.take_sublist _ _).mem hd
    obtain ⟨p, hp, hpd⟩ := List.mem_map.mp hd2
    have hget : alGet p.1 (dailyFold [] items) = some p.2 :=
      alGet_of_mem _ hkeysnd p hp
    have hlast := dailyFold_alGet items [] p.1
    rw [hget] at hlast
    cases hl : lastMidday p.1 items with
    | none =>
      rw [hl] at hlast
      simp [alGet] at hlast
    | some it =>
      rw [hl] at hlast
      have hit : forecastItemToDay it = p.2 := by
        injection hlast.symm with h0
      obtain ⟨hmem, hmid, hdof⟩ := lastMidday_mem p.1 items it hl
      have hdd : d.date = p.1 := by
        rw [← hpd]
        exact hdate p hp
    
      exact ⟨it, by rw [hdd]; exact hl, hmem, hmid, by rw [hit, hpd]⟩

/-- Witness for the amended C4 theorem on a realistic series: four distinct
    days with one midday sample each plus one non-midday sample. -/
theorem c4_witness :
    get_forecast (.response 200 fcItems) =
      .ok (some (((dailyFold [] fcItems).map Prod.snd).take 3)) ∧
    ((((dailyFold [] fcItems).map Prod.snd).take 3).length ≤ 3 ∧
     (((dailyFold [] fcItems).map Prod.snd).take 3).map (fun d => d.date) =
       (middayDatesFO [] fcItems).take 3 ∧
     ((((dailyFold [] fcItems).map Prod.snd).take 3).map
       (fun d => d.date)).Nodup ∧
     ∀ d ∈ ((dailyFold [] fcItems).map Prod.snd).take 3,
       ∃ it, lastMidday d.date fcItems = some it ∧ it ∈ fcItems ∧
         isMidday it = true ∧ forecastItemToDay it = d) := by
  exact ⟨by decide, c4_forecast_amended fcItems _ (by decide)⟩
